import Mathlib

/-!
Verification of the riff playback-control core against its specification.

The Go source under `internal/` is shallowly embedded: Go strings are
modelled as `List Char`, `time.Duration` / Unix timestamps as `Int`,
nilable pointers as `Option`, and fallible calls as `Except`/`Option`.
Go's `float64` arithmetic in the 95%-completion heuristic is modelled
with exact rationals (the comparisons at issue involve only small
integer operands, where `float64` is exact).
-/

namespace Riff

/-- Go strings (byte/rune sequences), modelled as character lists so that
`strings` package operations are structurally computable. -/
abbrev Str := List Char

/-- Coerce a Lean string literal to the `Str` model. -/
def str (s : String) : Str := s.data

/-- Worker for `goStarts`, recursing on the pattern (first) argument so a
concrete pattern reduces definitionally against an abstract tail. -/
def goStartsAux : Str → Str → Bool
  | [], _ => true
  | _ :: _, [] => false
  | q :: qs, c :: cs => (c == q) && goStartsAux qs cs

/-- `strings.HasPrefix s p`. -/
def goStarts (s p : Str) : Bool := goStartsAux p s

/-- Worker for `goTrim`, recursing on the pattern (first) argument. -/
def goTrimWorker : Str → Str → Option Str
  | [], t => some t
  | _ :: _, [] => none
  | q :: qs, c :: cs => if c == q then goTrimWorker qs cs else none

/-- Strips `p` from the front of `s`, `none` when `s` does not start with
`p`. -/
def goTrimAux (s p : Str) : Option Str := goTrimWorker p s

/-- `strings.TrimPrefix s p`: `s` without the leading `p`, or `s` unchanged. -/
def goTrim (s p : Str) : Str := (goTrimAux s p).getD s

/-- `strings.ToLower` (ASCII, which is all the code compares). -/
def goToLower (s : Str) : Str := s.map Char.toLower

/-- `strings.Contains s sub`. -/
def goContains : Str → Str → Bool
  | [], sub => sub.isEmpty
  | c :: cs, sub => goStarts (c :: cs) sub || goContains cs sub

theorem goStartsAux_iff (p s : Str) : goStartsAux p s = true ↔ ∃ t, s = p ++ t := by
  induction p generalizing s with
  | nil => simp [goStartsAux]
  | cons x xs ih =>
    cases s with
    | nil => simp [goStartsAux]
    | cons c cs =>
      simp only [goStartsAux, Bool.and_eq_true, beq_iff_eq, ih, List.cons_append,
        List.cons.injEq]
      constructor
      · rintro ⟨rfl, t, rfl⟩; exact ⟨t, rfl, rfl⟩
      · rintro ⟨t, rfl, rfl⟩; exact ⟨rfl, t, rfl⟩

theorem goStarts_iff (s p : Str) : goStarts s p = true ↔ ∃ t, s = p ++ t :=
  goStartsAux_iff p s

theorem goTrimWorker_eq_some_iff (p s r : Str) :
    goTrimWorker p s = some r ↔ s = p ++ r := by
  induction p generalizing s with
  | nil => simp [goTrimWorker, eq_comm]
  | cons x xs ih =>
    cases s with
    | nil => simp [goTrimWorker]
    | cons c cs =>
      by_cases h : c = x
      · subst h; simp [goTrimWorker, ih]
      · simp [goTrimWorker, h, Ne.symm h]

theorem goTrimAux_eq_some_iff (s p r : Str) :
    goTrimAux s p = some r ↔ s = p ++ r :=
  goTrimWorker_eq_some_iff p s r

theorem goTrimAux_eq_none_iff (s p : Str) :
    goTrimAux s p = none ↔ goStarts s p = false := by
  constructor
  · intro h
    cases hs : goStarts s p with
    | false => rfl
    | true =>
      obtain ⟨t, rfl⟩ := (goStarts_iff s p).mp hs
      rw [(goTrimAux_eq_some_iff (p ++ t) p t).mpr rfl] at h
      cases h
  · intro h
    cases ht : goTrimAux s p with
    | none => rfl
    | some r =>
      have := (goTrimAux_eq_some_iff s p r).mp ht
      subst this
      have : goStarts (p ++ r) p = true := (goStarts_iff _ _).mpr ⟨r, rfl⟩
      rw [this] at h; cases h

/-! ## Domain model (`internal/core`) -/

/-- `core.Track`.  `Duration` is Go's `time.Duration` (an integer count of
nanoseconds), modelled as `Int`. -/
structure Track where
  id : String
  uri : String
  title : String
  artist : String
  artists : List String
  album : String
  duration : Int
  source : String
deriving DecidableEq

/-- `core.Device` (`Type` and `Platform` are Go string types). -/
structure Device where
  id : String
  name : String
  type : String
  platform : String
  isActive : Bool
  account : String
deriving DecidableEq

/-- `core.PlaybackState`.  `Progress` is a `time.Duration`, modelled as `Int`. -/
structure PlaybackState where
  track : Option Track
  device : Option Device
  account : String
  isPlaying : Bool
  progress : Int
  volume : Int
deriving DecidableEq

/-- `core.Queue`: ordered tracks plus a current-index cursor (`int`). -/
structure Queue where
  tracks : List Track
  currentIndex : Int
deriving DecidableEq

/-- `Queue.Current`: the currently playing track, or `none` when the queue is
empty or the cursor is out of range (the `q == nil` receiver case is outside
the model; every `Queue` value here is a non-nil queue). -/
def Queue.Current (q : Queue) : Option Track :=
  if q.tracks.isEmpty || q.currentIndex < 0 || (q.tracks.length : Int) ≤ q.currentIndex then
    none
  else
    q.tracks.get? q.currentIndex.toNat

/-! ## OAuth token (Spotify auth package) -/

/-- `auth.Token`: the Spotify OAuth token record.  `ExpiresAt` is a
`time.Time`; instants are modelled as `Int` seconds on the timeline. -/
structure Token where
  accessToken : String
  tokenType : String
  scope : String
  expiresIn : Int
  refreshToken : String
  expiresAt : Int

/-- `auth.Token.IsExpired`: `time.Now().Add(60 * time.Second).After(t.ExpiresAt)`
— `time.Time.After` is a strict comparison, so the token counts as expired
exactly when `now + 60` is strictly past the recorded expiry. -/
def Token.IsExpired (t : Token) (now : Int) : Bool := t.expiresAt < now + 60

/-! ## Event watcher (`internal/tail`) -/

/-- `tail.EventType`. -/
inductive EventType
  | trackChange
  | trackComplete
  | trackSkip
  | pause
  | resume
  | volumeChange
  | deviceChange
deriving DecidableEq

/-- `tail.Event`.  The Go struct also records a wall-clock `Timestamp`
(`time.Now()` at diff time); real time is outside the model and no claim
refers to it. -/
structure Event where
  type : EventType
  previous : Option PlaybackState
  current : Option PlaybackState
deriving DecidableEq

/-- `PlaybackState.HasTrack` on a non-nil receiver (inside `diffStates` the
receiver is always a checked non-nil pointer). -/
def PlaybackState.hasTrack (s : PlaybackState) : Bool := s.track.isSome

/-- `tail.trackChanged`. -/
def trackChanged (p c : PlaybackState) : Bool :=
  match p.track, c.track with
  | none, none => false
  | none, some _ => true
  | some _, none => true
  | some tp, some tc => tp.uri != tc.uri

/-- `tail.wasCompleted`: progress at least 95% of a nonzero duration
(`float64` multiplication modelled exactly over ℚ). -/
def wasCompleted (s : PlaybackState) : Bool :=
  match s.track with
  | none => false
  | some t =>
      if t.duration = 0 then false
      else decide ((0.95 : ℚ) * (t.duration : ℚ) ≤ (s.progress : ℚ))

/-- `tail.wasSkipped`: a missing or zero duration counts as a skip, else
progress strictly below 95% of duration. -/
def wasSkipped (s : PlaybackState) : Bool :=
  match s.track with
  | none => true
  | some t =>
      if t.duration = 0 then true
      else decide ((s.progress : ℚ) < (0.95 : ℚ) * (t.duration : ℚ))

/-- `tail.deviceChanged`. -/
def deviceChanged (p c : PlaybackState) : Bool :=
  match p.device, c.device with
  | none, none => false
  | none, some _ => true
  | some _, none => true
  | some dp, some dc => dp.id != dc.id

/-- `tail.diffStates`: compare two snapshots and return the detected events
in emission order (track identity, pause/resume, volume, device). -/
def diffStates : Option PlaybackState → Option PlaybackState → List Event
  | _, none => []
  | none, some c =>
      if c.hasTrack then [⟨.trackChange, none, some c⟩] else []
  | some p, some c =>
      (if trackChanged p c then
        [⟨(if p.hasTrack && wasCompleted p then EventType.trackComplete
           else if p.hasTrack && wasSkipped p then EventType.trackSkip
           else EventType.trackChange), some p, some c⟩]
       else [])
      ++ (if p.isPlaying && !c.isPlaying then [⟨.pause, some p, some c⟩]
          else if !p.isPlaying && c.isPlaying then [⟨.resume, some p, some c⟩]
          else [])
      ++ (if p.volume != c.volume then [⟨.volumeChange, some p, some c⟩] else [])
      ++ (if deviceChanged p c then [⟨.deviceChange, some p, some c⟩] else [])

/-- The three track-identity event kinds. -/
def isTrackIdentityType : EventType → Bool
  | .trackChange => true
  | .trackComplete => true
  | .trackSkip => true
  | _ => false

/-- The types of the track-identity events of an event list, in order. -/
def trackIdentityTypes (es : List Event) : List EventType :=
  (es.filter (fun e => isTrackIdentityType e.type)).map (fun e => e.type)

/-- Capacity of the watcher's event channel: `make(chan Event, 16)` in
`NewWatcher`. -/
def watcherQueueCapacity : Nat := 16

/-- The poll loop's non-blocking emit, `select { case w.events <- e: default: }`,
acting on the buffered channel's pending contents (no concurrent receive during
the send attempt): append when there is room, otherwise leave the buffer
unchanged — the incoming event is dropped. -/
def trySendEvent (queue : List Event) (e : Event) : List Event :=
  if queue.length < watcherQueueCapacity then queue ++ [e] else queue

/-- Drop-oldest push as the claim words it (evict the head to make room for
the new event); stated only to compare against `trySendEvent`. -/
def trySendDropOldest (queue : List Event) (e : Event) : List Event :=
  if queue.length < watcherQueueCapacity then queue ++ [e] else queue.tail ++ [e]

/-! ## Spotify REST client retry loop (`internal/spotify/client`) -/

/-- `maxRetries` constant. -/
def maxRetries : Nat := 3

/-- `baseRetryWait` constant, in milliseconds. -/
def baseRetryWait : Nat := 500

/-- Outcome of `Client.request` (after a successfully obtained token; body
marshalling and JSON decoding of a success body are outside the claims).
`exhausted` is the final "request failed after %d retries" error wrapping the
last attempt's error, recorded here by its HTTP status. -/
inductive ReqResult
  | success
  | ctxErr
  | apiError (status : Nat)
  | exhausted (lastStatus : Option Nat)
deriving DecidableEq

/-- Observable trace of one `Client.request` call: how many HTTP attempts ran,
the backoff waits actually completed (in order, ms), and the outcome. -/
structure ReqTrace where
  attempts : Nat
  waits : List Nat
  result : ReqResult
deriving DecidableEq

/-- The retry loop of `Client.request`.  `cancel k` models the caller's
context being found cancelled during the wait preceding attempt `k`
(the `select` on `ctx.Done()` versus `time.After(wait)`); `respond k` is the
HTTP status of attempt `k` (network transport is assumed to deliver a
response).  `remaining` counts loop iterations left
(`for attempt := 0; attempt <= maxRetries; attempt++`). -/
def requestLoop (cancel : Nat → Bool) (respond : Nat → Nat) :
    Nat → Nat → Option Nat → Nat → List Nat → ReqTrace
  | _, 0, lastErr, attempts, waits =>
      ⟨attempts, waits.reverse, .exhausted lastErr⟩
  | attempt, remaining + 1, _lastErr, attempts, waits =>
      if attempt > 0 && cancel attempt then
        ⟨attempts, waits.reverse, .ctxErr⟩
      else
        let waits' :=
          if attempt > 0 then (baseRetryWait * 2 ^ (attempt - 1)) :: waits
          else waits
        let st := respond attempt
        if st = 204 then ⟨attempts + 1, waits'.reverse, .success⟩
        else if 500 ≤ st then
          requestLoop cancel respond (attempt + 1) remaining (some st)
            (attempts + 1) waits'
        else if 400 ≤ st then ⟨attempts + 1, waits'.reverse, .apiError st⟩
        else ⟨attempts + 1, waits'.reverse, .success⟩

/-- `Client.request`, entered with attempt 0 and `maxRetries` retries
available. -/
def clientRequest (cancel : Nat → Bool) (respond : Nat → Nat) : ReqTrace :=
  requestLoop cancel respond 0 (maxRetries + 1) none 0 []

/-! ## Sonos player (`internal/sonos/player.go`) -/

/-- `sonos.Player.GetQueue` — the body is literally
`return &core.Queue{}, nil` ("Sonos queue retrieval is more complex,
returning empty for now").  The context argument is unused, as in the
source; the Go `error` return is modelled by `Except String`. -/
def sonosGetQueue (_ctx : Unit) : Except String Queue :=
  .ok ⟨[], 0⟩

/-- `sonos.ConvertSpotifyURIWithMetadata`: Spotify URI → Sonos URI plus a
DIDL metadata string (always empty in the source). -/
def ConvertSpotifyURIWithMetadata (uri : Str) : Str × Str :=
  if !(goStarts uri (str "spotify:")) then (uri, [])
  else
    let suffix := str "?sid=12&flags=8224&sn=1"
    if goStarts uri (str "spotify:track:") then
      (str "x-sonos-spotify:" ++ uri ++ suffix, [])
    else if goStarts uri (str "spotify:album:") then
      (str "x-rincon-cpcontainer:1004206c" ++ uri ++ suffix, [])
    else if goStarts uri (str "spotify:playlist:") then
      (str "x-rincon-cpcontainer:1006206c" ++ uri ++ suffix, [])
    else if goStarts uri (str "spotify:artist:") then
      (str "x-rincon-cpcontainer:1006206c" ++ uri ++ suffix, [])
    else (str "x-sonos-spotify:" ++ uri ++ suffix, [])

/-- `sonos.ExtractSpotifyTrackID`: strip an optional `x-sonos-spotify:`
scheme, demand a `spotify:track:` head, cut at the first `?`
(`strings.SplitN(uri, "?", 2)[0]`), and strip the `spotify:track:` head. -/
def ExtractSpotifyTrackID (uri : Str) : Str :=
  let u := goTrim uri (str "x-sonos-spotify:")
  if goStarts u (str "spotify:track:") then
    goTrim (u.takeWhile (fun c => c != '?')) (str "spotify:track:")
  else []

theorem goTrim_append (p t : Str) : goTrim (p ++ t) p = t := by
  unfold goTrim
  rw [(goTrimAux_eq_some_iff (p ++ t) p t).mpr rfl]
  rfl

theorem takeWhile_append_of_all (X S : Str) (pred : Char → Bool)
    (h : ∀ c ∈ X, pred c = true) :
    (X ++ S).takeWhile pred = X ++ S.takeWhile pred := by
  induction X with
  | nil => simp
  | cons c cs ih =>
    simp only [List.cons_append, List.takeWhile_cons]
    rw [h c (by simp)]
    simp only [if_true]
    rw [ih (fun d hd => h d (by simp [hd]))]

theorem extract_of_full (Z : Str) :
    ExtractSpotifyTrackID (str "x-sonos-spotify:spotify:track:" ++ Z) =
      goTrim (str "spotify:track:" ++ Z.takeWhile (fun c => c != '?'))
        (str "spotify:track:") := rfl

/-! ## Claim theorems (first group) -/

/-- C9: for every queue value, an out-of-range cursor (negative, past the end,
or an empty queue) yields "no current track" (`none`) rather than an error,
and an in-range cursor yields exactly the track stored at that index. -/
theorem queue_current_cursor_C9 (q : Queue) :
    ((q.tracks = [] ∨ q.currentIndex < 0 ∨ (q.tracks.length : Int) ≤ q.currentIndex) →
      q.Current = none)
    ∧ (0 ≤ q.currentIndex → q.currentIndex < (q.tracks.length : Int) →
      q.Current = q.tracks.get? q.currentIndex.toNat ∧ q.Current.isSome = true) := by
  constructor
  · intro h
    unfold Queue.Current
    rcases h with h | h | h
    · simp [h]
    · simp [h]
    · simp [h]
  · intro h0 hlt
    have hne : ¬ q.tracks.isEmpty = true := by
      intro he
      rw [List.isEmpty_iff] at he
      rw [he] at hlt
      simp at hlt
      omega
    have hcond : (q.tracks.isEmpty || decide (q.currentIndex < 0) ||
        decide ((q.tracks.length : Int) ≤ q.currentIndex)) = false := by
      simp only [Bool.or_eq_false_iff, decide_eq_false_iff_not, not_lt, not_le]
      exact ⟨⟨Bool.eq_false_iff.mpr hne, h0⟩, hlt⟩
    constructor
    · unfold Queue.Current
      rw [hcond]
      simp
    · unfold Queue.Current
      rw [hcond]
      simp only [Bool.false_eq_true, if_false]
      rw [Option.isSome_iff_ne_none]
      intro hnone
      rw [List.get?_eq_none] at hnone
      omega

/-- Witness for C9 at a concrete queue. -/
theorem queue_current_cursor_C9_witness :
    let t : Track := ⟨"i", "u", "t", "a", [], "al", 1000, "spotify"⟩
    let q : Queue := ⟨[t], 0⟩
    q.Current = q.tracks.get? q.currentIndex.toNat ∧ q.Current.isSome = true :=
  (queue_current_cursor_C9 _).2 (by decide) (by decide)

/-- C3 counterexample: for a token whose expiry is exactly `now + 60`
(expiry 1060, now 1000), the claim's boundary condition `expiry ≤ now + 60`
holds, yet `IsExpired` returns `false` — `time.Time.After` is strict, so a
token exactly 60 seconds from expiry is NOT yet considered expired. -/
theorem token_isExpired_C3_counterexample :
    Token.IsExpired ⟨"a", "Bearer", "s", 3600, "r", 1060⟩ 1000 = false
    ∧ (1060 : Int) ≤ 1000 + 60 := by decide

/-- C3 (amended): `IsExpired` is true exactly when the expiry timestamp is
strictly less than `now + 60` seconds; at the boundary where the expiry
equals `now + 60` (exactly 60 seconds before expiry) it returns `false`. -/
theorem token_isExpired_C3 (t : Token) (now : Int) :
    (t.IsExpired now = true ↔ t.expiresAt < now + 60)
    ∧ (t.expiresAt = now + 60 → t.IsExpired now = false) := by
  constructor
  · simp [Token.IsExpired]
  · intro h
    simp [Token.IsExpired, h]

/-- Witness for the amended C3 at concrete tokens and times: expiry one
second inside the buffer is expired, and the exact 60-second boundary is
not. -/
theorem token_isExpired_C3_witness :
    Token.IsExpired ⟨"a", "Bearer", "s", 3600, "r", 1059⟩ 1000 = true
    ∧ Token.IsExpired ⟨"a", "Bearer", "s", 3600, "r", 1060⟩ 1000 = false :=
  ⟨(token_isExpired_C3 ⟨"a", "Bearer", "s", 3600, "r", 1059⟩ 1000).1.mpr
      (by norm_num),
   (token_isExpired_C3 ⟨"a", "Bearer", "s", 3600, "r", 1060⟩ 1000).2 rfl⟩

/-- C1 counterexample: with a zero-duration previous track at progress 0 and a
differing current track URI, the "progress ≥ 0.95 × duration" rule is satisfied
(`0.95 · 0 ≤ 0`), so the claim demands `TrackComplete`; the code emits
`TrackSkip` (its zero-duration branch bypasses the 95% rule). -/
theorem diff_zero_duration_C1_counterexample :
    let tp : Track := ⟨"", "spotify:track:a", "", "", [], "", 0, "spotify"⟩
    let tc : Track := ⟨"", "spotify:track:b", "", "", [], "", 0, "spotify"⟩
    let p : PlaybackState := ⟨some tp, none, "", true, 0, 10⟩
    let c : PlaybackState := ⟨some tc, none, "", true, 0, 10⟩
    trackIdentityTypes (diffStates (some p) (some c)) = [.trackSkip]
    ∧ (0.95 : ℚ) * ((0 : Int) : ℚ) ≤ ((0 : Int) : ℚ) := by
  constructor
  · rfl
  · norm_num

/-- C1 (amended): for every snapshot pair whose track URIs differ (both tracks
present), the diff emits exactly one track-identity event; it is
`TrackComplete` when the previous duration is nonzero and progress is at least
95% of it, and `TrackSkip` otherwise — in particular a previous track with a
recorded duration of zero is always classified as `TrackSkip`, not by the
`≥ 0.95 × duration` rule. -/
theorem diff_track_identity_C1 (p c : PlaybackState) (tp tc : Track)
    (hp : p.track = some tp) (hc : c.track = some tc) (hne : tp.uri ≠ tc.uri) :
    trackIdentityTypes (diffStates (some p) (some c)) =
      [if tp.duration ≠ 0 ∧ (0.95 : ℚ) * (tp.duration : ℚ) ≤ (p.progress : ℚ)
       then EventType.trackComplete else EventType.trackSkip] := by
  have htc : trackChanged p c = true := by
    simp only [trackChanged, hp, hc, bne_iff_ne, ne_eq, decide_not]
    simp [hne]
  have hht : p.hasTrack = true := by simp [PlaybackState.hasTrack, hp]
  by_cases hd : tp.duration = 0
  · have hwc : wasCompleted p = false := by simp [wasCompleted, hp, hd]
    have hws : wasSkipped p = true := by simp [wasSkipped, hp, hd]
    simp only [diffStates, htc, if_true, hht, hwc, hws, Bool.and_false,
      Bool.and_true, Bool.true_and, if_false, trackIdentityTypes,
      List.filter_append, List.map_append]
    simp only [hd, ne_eq, not_true_eq_false, false_and, if_false]
    split_ifs <;> simp_all [isTrackIdentityType]
  · by_cases hcomp : (0.95 : ℚ) * (tp.duration : ℚ) ≤ (p.progress : ℚ)
    · have hwc : wasCompleted p = true := by
        simp [wasCompleted, hp, hd, hcomp]
      simp only [diffStates, htc, if_true, hht, hwc, Bool.and_true,
        Bool.true_and, trackIdentityTypes, List.filter_append, List.map_append]
      simp only [hd, hcomp, ne_eq, not_false_eq_true, true_and, if_true]
      split_ifs <;> simp_all [isTrackIdentityType]
    · have hwc : wasCompleted p = false := by
        simp [wasCompleted, hp, hd, hcomp]
      have hws : wasSkipped p = true := by
        simp only [wasSkipped, hp]
        simp [hd, lt_of_not_ge hcomp]
      simp only [diffStates, htc, if_true, hht, hwc, hws, Bool.and_false,
        Bool.and_true, Bool.true_and, if_false, trackIdentityTypes,
        List.filter_append, List.map_append]
      simp only [hd, hcomp, ne_eq, not_false_eq_true, true_and, and_false, if_false]
      split_ifs <;> simp_all [isTrackIdentityType]

/-- Witness for the amended C1 at a concrete pair (duration 100, progress 100:
a natural completion). -/
theorem diff_track_identity_C1_witness :
    trackIdentityTypes (diffStates
      (some ⟨some ⟨"", "spotify:track:a", "", "", [], "", 100, "spotify"⟩,
        none, "", true, 100, 10⟩)
      (some ⟨some ⟨"", "spotify:track:b", "", "", [], "", 100, "spotify"⟩,
        none, "", true, 0, 10⟩)) =
      [if (100 : Int) ≠ 0 ∧ (0.95 : ℚ) * ((100 : Int) : ℚ) ≤ ((100 : Int) : ℚ)
       then EventType.trackComplete else EventType.trackSkip] :=
  diff_track_identity_C1 _ _ _ _ rfl rfl (by decide)

/-- C6 counterexample: with the 16-slot queue full, the non-blocking emit
leaves the queue unchanged — the oldest pending event is NOT dropped and the
new event does not enter; the drop-oldest push the claim describes yields a
different queue. -/
theorem watcher_queue_drop_C6_counterexample :
    let ev0 : Event := ⟨.pause, none, none⟩
    let evN : Event := ⟨.resume, none, none⟩
    let full := List.replicate 16 ev0
    trySendEvent full evN = full
    ∧ evN ∉ trySendEvent full evN
    ∧ trySendDropOldest full evN ≠ trySendEvent full evN := by decide

/-- C6 (amended): the emit never blocks the poll loop (it is a total
function of the pending buffer); when the 16-slot queue has room the event is
appended, and when it is full the incoming (newest) event is dropped and the
queue — including its oldest entry — is left unchanged. -/
theorem watcher_queue_drop_C6 (q : List Event) (e : Event) :
    (q.length < watcherQueueCapacity → trySendEvent q e = q ++ [e])
    ∧ (watcherQueueCapacity ≤ q.length → trySendEvent q e = q) := by
  constructor
  · intro h
    simp [trySendEvent, h]
  · intro h
    simp [trySendEvent, Nat.not_lt.mpr h]

/-- C2: when every attempt draws an HTTP 503, `Client.request` performs
exactly 4 attempts (1 initial + 3 retries), completes waits of
500·2⁰, 500·2¹, 500·2² ms before retries 1–3, and ends with the
retries-exhausted error wrapping the last attempt's 503; and whenever the
context is found cancelled during the wait before retry `k`, the call returns
the context's error immediately. -/
theorem spotify_retry_C2 :
    (∀ respond : Nat → Nat, (∀ n, respond n = 503) →
      clientRequest (fun _ => false) respond =
        ⟨4, [500 * 2 ^ 0, 500 * 2 ^ 1, 500 * 2 ^ 2], .exhausted (some 503)⟩)
    ∧ (∀ (cancel : Nat → Bool) (respond : Nat → Nat) (k : Nat),
        (∀ n, respond n = 503) → 1 ≤ k → k ≤ 3 → cancel k = true →
        (∀ j, j < k → cancel j = false) →
        (clientRequest cancel respond).result = .ctxErr) := by
  constructor
  · intro respond h
    simp [clientRequest, requestLoop, h, maxRetries, baseRetryWait]
  · intro cancel respond k hresp hk1 hk3 hck hcj
    interval_cases k
    · simp [clientRequest, requestLoop, hresp, hck, maxRetries]
    · have h1 : cancel 1 = false := hcj 1 (by norm_num)
      simp [clientRequest, requestLoop, hresp, hck, h1, maxRetries]
    · have h1 : cancel 1 = false := hcj 1 (by norm_num)
      have h2 : cancel 2 = false := hcj 2 (by norm_num)
      simp [clientRequest, requestLoop, hresp, hck, h1, h2, maxRetries]

/-- Witness for C2: the all-503 run with no cancellation, and a run cancelled
during the first backoff wait. -/
theorem spotify_retry_C2_witness :
    clientRequest (fun _ => false) (fun _ => 503) =
      ⟨4, [500 * 2 ^ 0, 500 * 2 ^ 1, 500 * 2 ^ 2], .exhausted (some 503)⟩
    ∧ (clientRequest (fun n => decide (n = 1)) (fun _ => 503)).result =
        .ctxErr := by
  refine ⟨spotify_retry_C2.1 _ (fun _ => rfl),
    spotify_retry_C2.2 _ _ 1 (fun _ => rfl) le_rfl (by norm_num) (by decide) ?_⟩
  intro j hj
  interval_cases j
  rfl

/-- C5 counterexample: the Sonos `GetQueue` succeeds, returning an empty queue
with a nil error — not an "unsupported operation" error. -/
theorem sonos_getQueue_C5_counterexample :
    sonosGetQueue () = .ok ⟨[], 0⟩ := rfl

/-- C5 (amended): for every context, the Sonos player's `GetQueue` silently
succeeds with a fresh empty queue and a nil error; it never returns an
"unsupported operation" (or any other) error. -/
theorem sonos_getQueue_C5 (ctx : Unit) :
    sonosGetQueue ctx = .ok ⟨[], 0⟩ ∧ ∀ e, sonosGetQueue ctx ≠ .error e := by
  constructor
  · rfl
  · intro e h
    cases h

/-- Witness for the amended C5 at the concrete (unit) context. -/
theorem sonos_getQueue_C5_witness :
    sonosGetQueue () = .ok ⟨[], 0⟩ ∧ sonosGetQueue () ≠ .error "x" :=
  ⟨(sonos_getQueue_C5 ()).1, (sonos_getQueue_C5 ()).2 "x"⟩

/-- Witness for the amended C6: appending to an empty queue, and a full queue
left unchanged. -/
theorem watcher_queue_drop_C6_witness :
    trySendEvent [] ⟨.pause, none, none⟩ = [⟨.pause, none, none⟩]
    ∧ trySendEvent (List.replicate 16 ⟨.pause, none, none⟩) ⟨.resume, none, none⟩
        = List.replicate 16 ⟨.pause, none, none⟩ :=
  ⟨(watcher_queue_drop_C6 [] ⟨.pause, none, none⟩).1 (by decide),
   (watcher_queue_drop_C6 (List.replicate 16 ⟨.pause, none, none⟩)
     ⟨.resume, none, none⟩).2 (by decide)⟩

/-- C7: a Spotify track URI translates to the `x-sonos-spotify:` scheme with
the fixed `?sid=12&flags=8224&sn=1` suffix; album URIs get
`x-rincon-cpcontainer:` with numeric prefix `1004206c`, and playlist and
artist URIs get `x-rincon-cpcontainer:` with prefix `1006206c`, each followed
by the original URI and the same suffix. -/
theorem sonos_uri_translation_C7 (X : Str) :
    ConvertSpotifyURIWithMetadata (str "spotify:track:" ++ X) =
      (str "x-sonos-spotify:spotify:track:" ++ X ++ str "?sid=12&flags=8224&sn=1", [])
    ∧ ConvertSpotifyURIWithMetadata (str "spotify:album:" ++ X) =
      (str "x-rincon-cpcontainer:1004206cspotify:album:" ++ X ++ str "?sid=12&flags=8224&sn=1", [])
    ∧ ConvertSpotifyURIWithMetadata (str "spotify:playlist:" ++ X) =
      (str "x-rincon-cpcontainer:1006206cspotify:playlist:" ++ X ++ str "?sid=12&flags=8224&sn=1", [])
    ∧ ConvertSpotifyURIWithMetadata (str "spotify:artist:" ++ X) =
      (str "x-rincon-cpcontainer:1006206cspotify:artist:" ++ X ++ str "?sid=12&flags=8224&sn=1", []) :=
  ⟨rfl, rfl, rfl, rfl⟩

/-- C10: extracting the track ID from the Sonos URI produced for
`spotify:track:X` returns exactly `X` (for non-empty `X` free of `?` and `:`),
and `ExtractSpotifyTrackID` returns the empty string for any URI carrying
neither the `x-sonos-spotify:spotify:track:` nor the bare `spotify:track:`
prefix shape. -/
theorem uri_roundtrip_C10 :
    (∀ X : Str, X ≠ [] → '?' ∉ X → ':' ∉ X →
      ExtractSpotifyTrackID
        (ConvertSpotifyURIWithMetadata (str "spotify:track:" ++ X)).1 = X)
    ∧ (∀ uri : Str,
        goStarts uri (str "x-sonos-spotify:spotify:track:") = false →
        goStarts uri (str "spotify:track:") = false →
        ExtractSpotifyTrackID uri = []) := by
  constructor
  · intro X _ hq _
    have h1 : (ConvertSpotifyURIWithMetadata (str "spotify:track:" ++ X)).1 =
        str "x-sonos-spotify:spotify:track:" ++ (X ++ str "?sid=12&flags=8224&sn=1") := rfl
    rw [h1, extract_of_full]
    rw [takeWhile_append_of_all X (str "?sid=12&flags=8224&sn=1") _
      (fun c hc => by
        simp only [bne_iff_ne, ne_eq]
        intro h
        exact hq (h ▸ hc))]
    rw [show (str "?sid=12&flags=8224&sn=1").takeWhile (fun c => c != '?') = [] from rfl]
    rw [List.append_nil]
    exact goTrim_append _ _
  · intro uri h30 h14
    unfold ExtractSpotifyTrackID goTrim
    cases ht : goTrimAux uri (str "x-sonos-spotify:") with
    | none =>
      simp only [ht, Option.getD_none]
      rw [h14]
      simp
    | some r =>
      have hr : uri = str "x-sonos-spotify:" ++ r :=
        (goTrimAux_eq_some_iff _ _ _).mp ht
      simp only [ht, Option.getD_some]
      cases hs : goStarts r (str "spotify:track:") with
      | false => simp [hs]
      | true =>
        exfalso
        obtain ⟨t, rfl⟩ := (goStarts_iff _ _).mp hs
        rw [show str "x-sonos-spotify:" ++ (str "spotify:track:" ++ t) =
            str "x-sonos-spotify:spotify:track:" ++ t from rfl] at hr
        subst hr
        rw [(goStarts_iff _ _).mpr ⟨t, rfl⟩] at h30
        cases h30

/-- Witness for C10 at the concrete track ID "abc". -/
theorem uri_roundtrip_C10_witness :
    ExtractSpotifyTrackID
      (ConvertSpotifyURIWithMetadata (str "spotify:track:" ++ str "abc")).1 = str "abc" :=
  uri_roundtrip_C10.1 (str "abc") (by decide) (by decide) (by decide)

/-! ## Device resolution (`internal/cli/play.go`) -/

/-- The fields of a Spotify REST device record (`client.Device`) that device
resolution reads. -/
structure SpDevice where
  id : Str
  name : Str
deriving DecidableEq

/-- The fields of a LAN-discovered Sonos device (`sonos.Device`) that device
resolution reads. -/
structure SonosDevice where
  uuid : Str
  name : Str
deriving DecidableEq

/-- A Sonos zone group (`sonos.Group`): `findSonosDevice` only walks its
member list. -/
structure ZoneGroup where
  members : List SonosDevice
deriving DecidableEq

/-- `cli.resolvedDevice`: the tagged resolver output (Spotify branch carries
the flat ID and display name; Sonos branch the rich device record). -/
inductive ResolvedDevice
  | spotify (id name : Str)
  | sonos (d : SonosDevice)
deriving DecidableEq

/-- Exact-ID predicate of the first Spotify pass: `d.ID == nameOrID`. -/
def spotifyIdMatch (q : Str) (d : SpDevice) : Bool := d.id == q

/-- Case-insensitive exact-name predicate of the second Spotify pass. -/
def spotifyNameMatch (q : Str) (d : SpDevice) : Bool :=
  goToLower d.name == goToLower q

/-- Case-insensitive substring predicate of the third Spotify pass. -/
def spotifySubMatch (q : Str) (d : SpDevice) : Bool :=
  goContains (goToLower d.name) (goToLower q)

/-- The combined per-device test of `findSonosDevice`: exact UUID, or
case-insensitive exact name, or case-insensitive substring — one boolean,
evaluated in a single scan. -/
def sonosMatch (q : Str) (m : SonosDevice) : Bool :=
  m.uuid == q || goToLower m.name == goToLower q
    || goContains (goToLower m.name) (goToLower q)

/-- `cli.findSonosDevice`:  `discovered = none` models a failed discovery
(`err != nil`), `groups = none` a failing `ListGroups` call (the code then
falls back to the basic discovered-device info).  Either path is one ordered
scan with the three-way `sonosMatch` test per device. -/
def findSonosDevice (discovered : Option (List SonosDevice))
    (groups : Option (List ZoneGroup)) (nameOrID : Str) : Option SonosDevice :=
  match discovered with
  | none => none
  | some ds =>
    if ds.isEmpty then none
    else
      match groups with
      | none => ds.find? (sonosMatch nameOrID)
      | some gs => (gs.flatMap (fun g => g.members)).find? (sonosMatch nameOrID)

/-- `cli.resolveDevice` over a successfully fetched REST device list: three
ordered passes over the whole Spotify list (exact ID, case-insensitive exact
name, case-insensitive substring), then the Sonos fallback. -/
def resolveDevice (devices : List SpDevice)
    (discovered : Option (List SonosDevice)) (groups : Option (List ZoneGroup))
    (nameOrID : Str) : Option ResolvedDevice :=
  match devices.find? (spotifyIdMatch nameOrID) with
  | some d => some (.spotify d.id d.name)
  | none =>
    match devices.find? (spotifyNameMatch nameOrID) with
    | some d => some (.spotify d.id d.name)
    | none =>
      match devices.find? (spotifySubMatch nameOrID) with
      | some d => some (.spotify d.id d.name)
      | none =>
        match findSonosDevice discovered groups nameOrID with
        | some sd => some (.sonos sd)
        | none => none

/-- LAN-side resolution as the claim words it (for comparison only): the same
three ordered passes — exact ID over the whole list, then case-insensitive
exact name, then substring. -/
def findSonosDeviceClaim (lan : List SonosDevice) (nameOrID : Str) :
    Option SonosDevice :=
  match lan.find? (fun m => m.uuid == nameOrID) with
  | some m => some m
  | none =>
    match lan.find? (fun m => goToLower m.name == goToLower nameOrID) with
    | some m => some m
    | none => lan.find? (fun m => goContains (goToLower m.name) (goToLower nameOrID))

/-- C4 counterexample: with no Spotify match and zone-group members
`[{u1, "Kitchen Speaker"}, {u2, "Kitchen"}]`, the claimed three-pass LAN
resolution picks `u2` (exact name beats substring), but the code's single
combined scan returns `u1` (first device in list order matching any of the
three criteria). -/
theorem resolveDevice_C4_counterexample :
    let m1 : SonosDevice := ⟨str "u1", str "Kitchen Speaker"⟩
    let m2 : SonosDevice := ⟨str "u2", str "Kitchen"⟩
    resolveDevice [] (some [m1]) (some [⟨[m1, m2]⟩]) (str "Kitchen") =
      some (.sonos m1)
    ∧ findSonosDeviceClaim [m1, m2] (str "Kitchen") = some m2
    ∧ m1 ≠ m2 := by decide


/-- C4 (amended): resolution is deterministic and, on the Spotify side, three
order-preserving passes (exact ID over the whole list, then case-insensitive
exact name, then case-insensitive substring); only when all three fail is the
LAN fallback consulted, which scans the zone-group member list ONCE, the
first member matching any of the three criteria winning (not three separate
passes).  Resolving "Kitchen" in `[{a2,Kitchen},{b1,Kitchen Speaker}]`
returns `a2`. -/
theorem resolveDevice_C4 (devices : List SpDevice)
    (discovered : Option (List SonosDevice)) (groups : Option (List ZoneGroup))
    (q : Str) :
    (∀ d, devices.find? (spotifyIdMatch q) = some d →
      resolveDevice devices discovered groups q = some (.spotify d.id d.name))
    ∧ (devices.find? (spotifyIdMatch q) = none →
       ∀ d, devices.find? (spotifyNameMatch q) = some d →
      resolveDevice devices discovered groups q = some (.spotify d.id d.name))
    ∧ (devices.find? (spotifyIdMatch q) = none →
       devices.find? (spotifyNameMatch q) = none →
       ∀ d, devices.find? (spotifySubMatch q) = some d →
      resolveDevice devices discovered groups q = some (.spotify d.id d.name))
    ∧ (devices.find? (spotifyIdMatch q) = none →
       devices.find? (spotifyNameMatch q) = none →
       devices.find? (spotifySubMatch q) = none →
      resolveDevice devices discovered groups q =
        (findSonosDevice discovered groups q).map ResolvedDevice.sonos)
    ∧ (∀ ds gs m, discovered = some ds → ds ≠ [] → groups = some gs →
        (gs.flatMap (fun g => g.members)).find? (sonosMatch q) = some m →
      findSonosDevice discovered groups q = some m ∧ sonosMatch q m = true)
    ∧ resolveDevice [⟨str "a2", str "Kitchen"⟩, ⟨str "b1", str "Kitchen Speaker"⟩]
        none none (str "Kitchen") = some (.spotify (str "a2") (str "Kitchen")) := by
  refine ⟨?_, ?_, ?_, ?_, ?_, by decide⟩
  · intro d h
    simp only [resolveDevice, h]
  · intro h1 d h
    simp only [resolveDevice, h1, h]
  · intro h1 h2 d h
    simp only [resolveDevice, h1, h2, h]
  · intro h1 h2 h3
    simp only [resolveDevice, h1, h2, h3]
    cases hf : findSonosDevice discovered groups q <;> simp [hf]
  · rintro ds gs m rfl hne rfl h
    have hemp : ds.isEmpty = false := by
      cases ds with
      | nil => exact absurd rfl hne
      | cons a as => rfl
    refine ⟨?_, List.find?_some h⟩
    simp only [findSonosDevice, hemp, Bool.false_eq_true, if_false, h]

/-- Witness for the amended C4: an exact-ID hit on a concrete device list. -/
theorem resolveDevice_C4_witness :
    resolveDevice [⟨str "a2", str "Kitchen"⟩] none none (str "a2") =
      some (.spotify (str "a2") (str "Kitchen")) :=
  (resolveDevice_C4 [⟨str "a2", str "Kitchen"⟩] none none (str "a2")).1
    ⟨str "a2", str "Kitchen"⟩ (by decide)



/-! ## Spotify device mapping (`internal/spotify/player`) -/

/-- `core.DeviceTypeSpeaker`. -/
def deviceTypeSpeaker : String := "speaker"
/-- `core.DeviceTypeComputer`. -/
def deviceTypeComputer : String := "computer"
/-- `core.DeviceTypePhone`. -/
def deviceTypePhone : String := "phone"
/-- `core.DeviceTypeTV`. -/
def deviceTypeTV : String := "tv"
/-- `core.DeviceTypeSoundbar`. -/
def deviceTypeSoundbar : String := "soundbar"

/-- The fields of the Spotify REST device record (`client.Device`) that
`convertDevice` reads. -/
structure ClientDevice where
  id : String
  name : String
  type : String
  isActive : Bool
deriving DecidableEq

/-- `player.convertDevice` on a non-nil record: the switch starts from
`deviceType := core.DeviceType(d.Type)` — the raw string cast — and
overwrites it only for the four known Spotify type strings; `Account` is
left at its zero value. -/
def convertDevice (d : ClientDevice) : Device :=
  { id := d.id
    name := d.name
    type :=
      if d.type = "Computer" then deviceTypeComputer
      else if d.type = "Smartphone" then deviceTypePhone
      else if d.type = "Speaker" then deviceTypeSpeaker
      else if d.type = "TV" then deviceTypeTV
      else d.type
    platform := "spotify"
    isActive := d.isActive
    account := "" }

/-- C8 counterexample: the unknown Spotify device-type string "Tablet" is
carried through verbatim — the resulting device type is "Tablet", which is
none of the domain enum's values and is not an "other" default (no such
value exists in `core`). -/
theorem convertDevice_C8_counterexample :
    (convertDevice ⟨"id1", "Pad", "Tablet", true⟩).type = "Tablet"
    ∧ (convertDevice ⟨"id1", "Pad", "Tablet", true⟩).type ≠ "other"
    ∧ (convertDevice ⟨"id1", "Pad", "Tablet", true⟩).type ∉
        [deviceTypeSpeaker, deviceTypeComputer, deviceTypePhone,
         deviceTypeTV, deviceTypeSoundbar] := by decide

/-- C8 (amended): the four known Spotify device-type strings map onto the
domain enum values, and every other device-type string passes through as the
raw string (a cast, not an "other" default — the value can lie outside the
enum). -/
theorem convertDevice_C8 (d : ClientDevice) :
    (d.type = "Computer" → (convertDevice d).type = deviceTypeComputer)
    ∧ (d.type = "Smartphone" → (convertDevice d).type = deviceTypePhone)
    ∧ (d.type = "Speaker" → (convertDevice d).type = deviceTypeSpeaker)
    ∧ (d.type = "TV" → (convertDevice d).type = deviceTypeTV)
    ∧ (d.type ∉ (["Computer", "Smartphone", "Speaker", "TV"] : List String) →
        (convertDevice d).type = d.type) := by
  refine ⟨?_, ?_, ?_, ?_, ?_⟩ <;> intro h
  · simp [convertDevice, h]
  · simp [convertDevice, h]
  · simp [convertDevice, h]
  · simp [convertDevice, h]
  · simp only [List.mem_cons, List.not_mem_nil, or_false, not_or] at h
    obtain ⟨h1, h2, h3, h4⟩ := h
    simp [convertDevice, h1, h2, h3, h4]

/-- Witness for the amended C8: the unknown type "Tablet" passes through. -/
theorem convertDevice_C8_witness :
    (convertDevice ⟨"i", "n", "Tablet", false⟩).type = "Tablet" :=
  (convertDevice_C8 ⟨"i", "n", "Tablet", false⟩).2.2.2.2 (by decide)


end Riff
